import Mathlib

/-
Verification development for the MultiWriterBenchmark example of the
vector_blf repository (docs/examples/MultiWriterBenchmark.cpp).

The benchmark orchestrator is embedded shallowly:
  * command-line parsing (parseSizeT, parseUint32, parseStreamSize,
    parseCommandLine) is translated directly from the source, with the
    C library functions strtoull, strtoul and strtoll modelled for an
    LP64 platform (unsigned long and unsigned long long are 64 bits);
  * the writer task (runWriter) and the orchestrator (main) are
    translated with the external BLF library abstracted as an
    environment oracle (ExtEnv) that decides which open, write, close
    and mkdir operations succeed, and supplies clock readings;
  * wall-clock durations are modelled as abstract natural-number ticks
    supplied by the environment, since only assigned-versus-untouched
    matters for the claims; value initialization of a double is 0.
-/

namespace MWB

/-- Numeric bound of a 64 bit unsigned integer, exclusive. -/
def U64 : Nat := 18446744073709551616

/-- Largest value of unsigned long long on LP64 (ULLONG_MAX). -/
def UMAX : Nat := 18446744073709551615

/-- Largest value of long long (LLONG_MAX). -/
def LLMAXn : Nat := 9223372036854775807

/-- C isspace in the default locale. -/
def isSpaceChar (c : Char) : Bool :=
  (c == ' ') || (c == '\t') || (c == '\n') || (c == '\x0b') || (c == '\x0c') || (c == '\r')

/-- C isdigit. -/
def isDigitChar (c : Char) : Bool :=
  (48 ≤ c.toNat) && (c.toNat ≤ 57)

/-- Value of a decimal digit character. -/
def digitVal (c : Char) : Nat := c.toNat - 48

/-- Consume a maximal run of decimal digits, accumulating their value;
returns the value and the unconsumed remainder. -/
def takeDigits : List Char → Nat → Nat × List Char
  | [], acc => (acc, [])
  | c :: cs, acc =>
    if isDigitChar c then takeDigits cs (acc * 10 + digitVal c) else (acc, c :: cs)

/-- Model of strtoull(text, end, 10) on LP64: skips leading whitespace,
accepts an optional sign (a minus sign negates the value in the unsigned
type), consumes a maximal digit run, saturates at ULLONG_MAX on overflow.
Returns the converted value and the suffix the end pointer points at;
when no conversion is performed the end pointer is the original string. -/
def strtoull10 (cs : List Char) : Nat × List Char :=
  match cs.dropWhile isSpaceChar with
  | [] => (0, cs)
  | c :: rest =>
    if c == '-' then
      match rest with
      | [] => (0, cs)
      | d :: _ =>
        if isDigitChar d then
          let p := takeDigits rest 0
          (if p.1 > UMAX then UMAX else (U64 - p.1 % U64) % U64, p.2)
        else (0, cs)
    else if c == '+' then
      match rest with
      | [] => (0, cs)
      | d :: _ =>
        if isDigitChar d then
          let p := takeDigits rest 0
          (if p.1 > UMAX then UMAX else p.1, p.2)
        else (0, cs)
    else if isDigitChar c then
      let p := takeDigits (c :: rest) 0
      (if p.1 > UMAX then UMAX else p.1, p.2)
    else (0, cs)

/-- Model of strtoll(text, end, 10): as strtoull10 but signed 64 bit,
saturating at LLONG_MIN and LLONG_MAX. -/
def strtoll10 (cs : List Char) : Int × List Char :=
  match cs.dropWhile isSpaceChar with
  | [] => (0, cs)
  | c :: rest =>
    if c == '-' then
      match rest with
      | [] => (0, cs)
      | d :: _ =>
        if isDigitChar d then
          let p := takeDigits rest 0
          (if p.1 > LLMAXn + 1 then -((LLMAXn : Int) + 1) else -(p.1 : Int), p.2)
        else (0, cs)
    else if c == '+' then
      match rest with
      | [] => (0, cs)
      | d :: _ =>
        if isDigitChar d then
          let p := takeDigits rest 0
          (if p.1 > LLMAXn then (LLMAXn : Int) else (p.1 : Int), p.2)
        else (0, cs)
    else if isDigitChar c then
      let p := takeDigits (c :: rest) 0
      (if p.1 > LLMAXn then (LLMAXn : Int) else (p.1 : Int), p.2)
    else (0, cs)

/-- parseSizeT: strtoull followed by the full-consumption check.
On LP64 the cast from unsigned long long to size_t is the identity. -/
def parseSizeT (text : String) : Except String Nat :=
  let r := strtoull10 text.data
  if r.2 ≠ [] then Except.error ("unable to parse numeric argument")
  else Except.ok r.1

/-- parseUint32: strtoul (64 bit on LP64, same model as strtoull),
full-consumption check, then the explicit uint32_t range check. -/
def parseUint32 (text : String) : Except String Nat :=
  let r := strtoull10 text.data
  if r.2 ≠ [] then Except.error ("unable to parse numeric argument")
  else if r.1 > 4294967295 then Except.error ("numeric argument exceeds uint32_t range")
  else Except.ok r.1

/-- parseStreamSize: strtoll, full-consumption check, then the
positivity check. -/
def parseStreamSize (text : String) : Except String Int :=
  let r := strtoll10 text.data
  if r.2 ≠ [] then Except.error ("unable to parse numeric argument")
  else if r.1 ≤ 0 then Except.error ("buffer sizes must be positive")
  else Except.ok r.1

/-- CommandLineOptions, field for field as in the source; streamsize is
a signed 64 bit integer, modelled as Int. -/
structure CommandLineOptions where
  fileCount : Nat
  messagesPerFile : Nat
  queueSize : Nat
  uncompressedBufferSize : Int
  logContainerSize : Nat
  compressionThreads : Nat
  outputDirectory : String
  deriving DecidableEq

/-- The defaults filled in before the argument loop.  The two library
defaults queried from a throwaway File instance, defaultLogContainerSize
and compressionThreadCount, are parameters dLCS and dCT of the model. -/
def initialOptions (dLCS dCT : Nat) : CommandLineOptions :=
  { fileCount := 10
    messagesPerFile := 200000
    queueSize := 10000
    uncompressedBufferSize := (dLCS : Int) * 16
    logContainerSize := dLCS
    compressionThreads := dCT
    outputDirectory := "blf_multi_writer_logs" }

/-- The clamp applied after the argument loop: a buffer smaller than one
log container is raised to exactly the log container size. -/
def clampOptions (o : CommandLineOptions) : CommandLineOptions :=
  if o.uncompressedBufferSize < (o.logContainerSize : Int) then
    { o with uncompressedBufferSize := (o.logContainerSize : Int) }
  else o

/-- Outcome of parseCommandLine: the help path calls exit(EXIT_SUCCESS),
the throw paths raise runtime_error with a message, otherwise options
are returned. -/
inductive ParseOutcome where
  | exitHelp : ParseOutcome
  | options : CommandLineOptions → ParseOutcome
  | error : String → ParseOutcome
  deriving DecidableEq

/-- True exactly on the throwing outcome. -/
def ParseOutcome.isErr : ParseOutcome → Bool
  | ParseOutcome.error _ => true
  | _ => false

/-- True exactly when options are returned. -/
def ParseOutcome.isOpts : ParseOutcome → Bool
  | ParseOutcome.options _ => true
  | _ => false

/-- The argument loop of parseCommandLine (lines 99 to 142 of the
source), one list element per argv entry after the program name.
requireValue throws when no next argument exists. -/
def parseLoop : CommandLineOptions → List String → ParseOutcome
  | opts, [] => ParseOutcome.options opts
  | opts, arg :: rest =>
    if arg = "-h" ∨ arg = "--help" then ParseOutcome.exitHelp
    else if arg = "--files" then
      match rest with
      | [] => ParseOutcome.error ("missing value for argument")
      | v :: rest2 =>
        match parseSizeT v with
        | Except.error m => ParseOutcome.error m
        | Except.ok n =>
          if n = 0 then ParseOutcome.error ("--files requires a positive value")
          else parseLoop { opts with fileCount := n } rest2
    else if arg = "--messages" then
      match rest with
      | [] => ParseOutcome.error ("missing value for argument")
      | v :: rest2 =>
        match parseSizeT v with
        | Except.error m => ParseOutcome.error m
        | Except.ok n =>
          if n = 0 then ParseOutcome.error ("--messages requires a positive value")
          else parseLoop { opts with messagesPerFile := n } rest2
    else if arg = "--queue-size" then
      match rest with
      | [] => ParseOutcome.error ("missing value for argument")
      | v :: rest2 =>
        match parseUint32 v with
        | Except.error m => ParseOutcome.error m
        | Except.ok n =>
          if n = 0 then ParseOutcome.error ("--queue-size requires a positive value")
          else parseLoop { opts with queueSize := n } rest2
    else if arg = "--uncompressed-bytes" then
      match rest with
      | [] => ParseOutcome.error ("missing value for argument")
      | v :: rest2 =>
        match parseStreamSize v with
        | Except.error m => ParseOutcome.error m
        | Except.ok n => parseLoop { opts with uncompressedBufferSize := n } rest2
    else if arg = "--log-container-bytes" then
      match rest with
      | [] => ParseOutcome.error ("missing value for argument")
      | v :: rest2 =>
        match parseUint32 v with
        | Except.error m => ParseOutcome.error m
        | Except.ok n => parseLoop { opts with logContainerSize := n } rest2
    else if arg = "--compression-threads" then
      match rest with
      | [] => ParseOutcome.error ("missing value for argument")
      | v :: rest2 =>
        match parseUint32 v with
        | Except.error m => ParseOutcome.error m
        | Except.ok n =>
          if n = 0 then ParseOutcome.error ("--compression-threads requires a positive value")
          else parseLoop { opts with compressionThreads := n } rest2
    else if arg = "--output-dir" then
      match rest with
      | [] => ParseOutcome.error ("missing value for argument")
      | v :: rest2 => parseLoop { opts with outputDirectory := v } rest2
    else ParseOutcome.error ("Unknown argument \x27" ++ arg ++ "\x27. Pass --help for usage.")

/-- parseCommandLine: defaults, the argument loop, then the clamp of
uncompressedBufferSize up to logContainerSize. -/
def parseCommandLine (dLCS dCT : Nat) (args : List String) : ParseOutcome :=
  match parseLoop (initialOptions dLCS dCT) args with
  | ParseOutcome.options o => ParseOutcome.options (clampOptions o)
  | r => r

/-- WriterResult as in the source; secondsTaken is a double in C++,
modelled as an abstract tick count because only the assignment pattern
matters to the claims.  Value initialization gives 0 for both fields. -/
structure WriterResult where
  messagesWritten : Nat
  secondsTaken : Nat
  deriving DecidableEq

/-- WriterConfig, field for field as in the source. -/
structure WriterConfig where
  index : Nat
  messagesPerFile : Nat
  queueSize : Nat
  uncompressedBufferSize : Int
  logContainerSize : Nat
  compressionThreads : Nat
  outputDirectory : String
  deriving DecidableEq

/-- The fields of a CanMessage that runWriter populates.  All machine
integers are modelled as Nat with the cast reductions made explicit. -/
structure CanMessage where
  channel : Nat
  dlc : Nat
  id : Nat
  objectTimeStamp : Nat
  flags : Nat
  data : List Nat
  deriving DecidableEq

/-- payloadCount in runWriter. -/
def payloadCount : Nat := 8

/-- The frame identifier expression of line 199 of the source, before
the uint32_t cast. -/
def frameId (i : Nat) : Nat := 0x100 + (i % 0x700)

/-- The message populated for frame i by task index, translating lines
196 to 205 of the source; each field carries the cast of its C++
assignment. -/
def mkCanMessage (index i : Nat) : CanMessage :=
  { channel := ((index % 0xFFFF) + 1) % 65536
    dlc := payloadCount % 256
    id := frameId i % 4294967296
    objectTimeStamp := i % U64
    flags := 0
    data := (List.range payloadCount).map (fun k => (i + k) % 256) }

/-- Oracle for the external BLF library and the operating system: which
opens, writes, closes and directory creations succeed (failures carry
the message of the exception the library would raise), and what the
steady clock reports as the elapsed duration of a task. -/
structure ExtEnv where
  openResult : String → Except String Bool
  writeResult : Nat → Nat → Option String
  closeResult : Nat → Option String
  elapsed : Nat → Nat
  mkdirOk : String → Bool

/-- The write loop of runWriter, starting at frame i with n frames left
to write: returns the frames submitted to file.write in order and the
message of the first write failure, if any; the failing frame was
already submitted when the library raised. -/
def writeFrom (env : ExtEnv) (index : Nat) : Nat → Nat → List CanMessage × Option String
  | _, 0 => ([], none)
  | i, Nat.succ n =>
    let msg := mkCanMessage index i
    match env.writeResult index i with
    | some m => ([msg], some m)
    | none =>
      let r := writeFrom env index (i + 1) n
      (msg :: r.1, r.2)

/-- Observable trace of one runWriter call: the path passed to
file.open, the frames submitted, and the final contents of the two
slots the task was given. -/
structure TaskTrace where
  pathOpened : String
  framesSubmitted : List CanMessage
  resultSlot : WriterResult
  errorSlot : Option String
  deriving DecidableEq

/-- The output file path built at lines 184 to 185 of the source. -/
def outputPath (dir : String) (index : Nat) : String :=
  dir ++ "/can_channel_" ++ toString (index + 1) ++ ".blf"

/-- runWriter (lines 177 to 216): open the per-index path, write the
frames, close, and only then assign both result fields; any failure is
captured into the error slot and leaves the result slot untouched. -/
def runWriter (env : ExtEnv) (cfg : WriterConfig) (slot : WriterResult) : TaskTrace :=
  let path := outputPath cfg.outputDirectory cfg.index
  match env.openResult path with
  | Except.error m => ⟨path, [], slot, some m⟩
  | Except.ok false =>
    ⟨path, [], slot, some ("unable to open output file \x27" ++ path ++ "\x27")⟩
  | Except.ok true =>
    let written := writeFrom env cfg.index 0 cfg.messagesPerFile
    match written.2 with
    | some m => ⟨path, written.1, slot, some m⟩
    | none =>
      match env.closeResult cfg.index with
      | some m => ⟨path, written.1, slot, some m⟩
      | none =>
        ⟨path, written.1, ⟨cfg.messagesPerFile, env.elapsed cfg.index⟩, none⟩

/-- The per-task configuration built in the launch loop of main. -/
def writerConfigOf (opts : CommandLineOptions) (i : Nat) : WriterConfig :=
  { index := i
    messagesPerFile := opts.messagesPerFile
    queueSize := opts.queueSize
    uncompressedBufferSize := opts.uncompressedBufferSize
    logContainerSize := opts.logContainerSize
    compressionThreads := opts.compressionThreads
    outputDirectory := opts.outputDirectory }

/-- The traces of all fileCount tasks after the join barrier.  Each
task receives its own value-initialized result slot; slot i depends
only on task i, reflecting that tasks share no mutable state. -/
def taskTraces (env : ExtEnv) (opts : CommandLineOptions) : List TaskTrace :=
  (List.range opts.fileCount).map
    (fun i => runWriter env (writerConfigOf opts i) ⟨0, 0⟩)

/-- The errors vector of main after the join barrier, one slot per
task in index order. -/
def errorSlots (env : ExtEnv) (opts : CommandLineOptions) : List (Option String) :=
  (taskTraces env opts).map (fun t => t.errorSlot)

/-- The results vector of main after the join barrier. -/
def resultSlots (env : ExtEnv) (opts : CommandLineOptions) : List WriterResult :=
  (taskTraces env opts).map (fun t => t.resultSlot)

/-- The outcome of one run of main. -/
inductive MainOutcome where
  | helpShown : MainOutcome
  | parseFail : String → MainOutcome
  | dirFail : String → MainOutcome
  | runFatal : String → MainOutcome
  | report : CommandLineOptions → List WriterResult → MainOutcome
  deriving DecidableEq

/-- The outcome of main together with whether directory creation was
attempted and how many writer tasks were launched. -/
structure MainTrace where
  outcome : MainOutcome
  dirCreationAttempted : Bool
  tasksLaunched : Nat
  deriving DecidableEq

/-- main (lines 250 to 297): parse, create the output directory, launch
and join all tasks, scan the error slots in index order and re-raise
the first captured failure, otherwise print the summary. -/
def mainRun (env : ExtEnv) (dLCS dCT : Nat) (args : List String) : MainTrace :=
  match parseCommandLine dLCS dCT args with
  | ParseOutcome.exitHelp => ⟨MainOutcome.helpShown, false, 0⟩
  | ParseOutcome.error m => ⟨MainOutcome.parseFail m, false, 0⟩
  | ParseOutcome.options opts =>
    if env.mkdirOk opts.outputDirectory then
      match (errorSlots env opts).findSome? id with
      | some m => ⟨MainOutcome.runFatal m, true, opts.fileCount⟩
      | none =>
        ⟨MainOutcome.report opts (resultSlots env opts), true, opts.fileCount⟩
    else ⟨MainOutcome.dirFail opts.outputDirectory, true, 0⟩

/-- The total frame count printed by printSummary (line 219): a size_t
product, hence reduced modulo 2 to the 64. -/
def totalFramesReported (opts : CommandLineOptions) : Nat :=
  (opts.messagesPerFile * opts.fileCount) % U64

/-- Sum of the messagesWritten fields over all task slots. -/
def sumMessagesWritten (env : ExtEnv) (opts : CommandLineOptions) : Nat :=
  ((taskTraces env opts).map (fun t => t.resultSlot.messagesWritten)).sum

/-- Environment in which every library and system operation succeeds
and the clock reports zero elapsed ticks. -/
def allOkEnv : ExtEnv :=
  { openResult := fun _ => Except.ok true
    writeResult := fun _ _ => none
    closeResult := fun _ => none
    elapsed := fun _ => 0
    mkdirOk := fun _ => true }

/-- As allOkEnv but with a different clock, to witness independence of
the produced frames from timing. -/
def allOkEnvSlow : ExtEnv :=
  { allOkEnv with elapsed := fun _ => 7 }

/-- Environment in which every open reports a closed file. -/
def openFailEnv : ExtEnv :=
  { allOkEnv with openResult := fun _ => Except.ok false }

/-- Environment in which only the open of the second output file fails. -/
def secondOpenFailEnv : ExtEnv :=
  { allOkEnv with
    openResult := fun p => Except.ok (p != "blf_multi_writer_logs/can_channel_2.blf") }

/-- The options of the concrete scenario of the spec: three files of one
hundred frames into directory out. -/
def scenarioOpts : CommandLineOptions := ⟨3, 100, 10, 2048, 128, 4, "out"⟩

/-- Resolved options for two files of one message each, defaults 128/4. -/
def optsTwoOne : CommandLineOptions := ⟨2, 1, 10000, 2048, 128, 4, "blf_multi_writer_logs"⟩

/-- Resolved options for two files of three messages each. -/
def optsTwoThree : CommandLineOptions := ⟨2, 3, 10000, 2048, 128, 4, "blf_multi_writer_logs"⟩

/-- Resolved options whose frame-count product is exactly 2 to the 64:
sixteen files of 2 to the 60 messages each. -/
def bigOpts : CommandLineOptions :=
  ⟨16, 1152921504606846976, 10000, 2048, 128, 4, "blf_multi_writer_logs"⟩

/-- Resolved options after supplying a buffer of 5 bytes and a container
of 100 bytes: the buffer is clamped up to 100. -/
def clampWOpts : CommandLineOptions := ⟨10, 200000, 10000, 100, 100, 4, "blf_multi_writer_logs"⟩

/-- Options resolved from the arguments of the help counterexample. -/
def cexHelpOpts : CommandLineOptions := ⟨1, 1, 10000, 2048, 128, 4, "--help"⟩

/-- A small writer configuration for concrete witnesses. -/
def cfgW : WriterConfig := ⟨0, 2, 10, 2048, 128, 4, "out"⟩

/-- The clamp establishes the buffer invariant. -/
theorem clampOptions_le (o : CommandLineOptions) :
    ((clampOptions o).logContainerSize : Int) ≤ (clampOptions o).uncompressedBufferSize := by
  unfold clampOptions
  split
  · simp
  · omega

/-- The clamp never changes the container size. -/
theorem clampOptions_lcs (o : CommandLineOptions) :
    (clampOptions o).logContainerSize = o.logContainerSize := by
  unfold clampOptions
  split <;> rfl

/-- When the supplied buffer is smaller than the container, the clamp
raises it to exactly the container size. -/
theorem clampOptions_raises (o : CommandLineOptions)
    (h : o.uncompressedBufferSize < (o.logContainerSize : Int)) :
    (clampOptions o).uncompressedBufferSize = (o.logContainerSize : Int) := by
  unfold clampOptions
  rw [if_pos h]

/-- One runWriter call either succeeds, assigning both result fields
after the close, or captures a failure and leaves the incoming result
slot untouched. -/
theorem runWriter_cases (env : ExtEnv) (cfg : WriterConfig) (slot : WriterResult) :
    ((runWriter env cfg slot).errorSlot = none ∧
      (runWriter env cfg slot).resultSlot = ⟨cfg.messagesPerFile, env.elapsed cfg.index⟩) ∨
    ((runWriter env cfg slot).errorSlot.isSome = true ∧
      (runWriter env cfg slot).resultSlot = slot) := by
  unfold runWriter
  cases ho : env.openResult (outputPath cfg.outputDirectory cfg.index) with
  | error m =>
    right
    simp [ho]
  | ok b =>
    cases b with
    | false =>
      right
      simp [ho]
    | true =>
      cases hw : (writeFrom env cfg.index 0 cfg.messagesPerFile).2 with
      | some m =>
        right
        simp [ho, hw]
      | none =>
        cases hc : env.closeResult cfg.index with
        | some m =>
          right
          simp [ho, hw, hc]
        | none =>
          left
          simp [ho, hw, hc]

/-- A write loop whose environment never fails a write reports no
failure. -/
theorem writeFrom_none_of (env : ExtEnv) (index : Nat)
    (hw : ∀ j, env.writeResult index j = none) :
    ∀ (n s : Nat), (writeFrom env index s n).2 = none := by
  intro n
  induction n with
  | zero => intro s; simp [writeFrom]
  | succ n ih => intro s; simp [writeFrom, hw s, ih (s + 1)]

/-- A task whose open, writes and close all succeed ends with an empty
failure slot and a fully assigned result slot. -/
theorem runWriter_success (env : ExtEnv) (cfg : WriterConfig) (slot : WriterResult)
    (ho : env.openResult (outputPath cfg.outputDirectory cfg.index) = Except.ok true)
    (hw : ∀ j, env.writeResult cfg.index j = none)
    (hc : env.closeResult cfg.index = none) :
    (runWriter env cfg slot).errorSlot = none ∧
    (runWriter env cfg slot).resultSlot = ⟨cfg.messagesPerFile, env.elapsed cfg.index⟩ := by
  unfold runWriter
  simp [ho, hc, writeFrom_none_of env cfg.index hw]

/-- Element j of the write loop trace started at frame s is the message
for frame s + j. -/
theorem writeFrom_get (env : ExtEnv) (index : Nat) :
    ∀ (n s j : Nat) (m : CanMessage),
      ((writeFrom env index s n).1)[j]? = some m → m = mkCanMessage index (s + j) := by
  intro n
  induction n with
  | zero =>
    intro s j m h
    simp [writeFrom] at h
  | succ n ih =>
    intro s j m h
    rw [writeFrom] at h
    cases hw : env.writeResult index s with
    | some msg =>
      rw [hw] at h
      cases j with
      | zero =>
        simp at h
        rw [Nat.add_zero]
        exact h.symm
      | succ j =>
        simp at h
    | none =>
      rw [hw] at h
      cases j with
      | zero =>
        simp at h
        rw [Nat.add_zero]
        exact h.symm
      | succ j =>
        simp at h
        have := ih (s + 1) j m h
        have hadd : s + 1 + j = s + (j + 1) := by omega
        rw [hadd] at this
        exact this

/-- Any frame submitted by runWriter is the pure message of its
sequence number. -/
theorem runWriter_frames_get (env : ExtEnv) (cfg : WriterConfig) (slot : WriterResult)
    (i : Nat) (m : CanMessage)
    (h : (runWriter env cfg slot).framesSubmitted[i]? = some m) :
    m = mkCanMessage cfg.index i := by
  unfold runWriter at h
  cases ho : env.openResult (outputPath cfg.outputDirectory cfg.index) with
  | error me =>
    simp [ho] at h
  | ok b =>
    cases b with
    | false =>
      simp [ho] at h
    | true =>
      cases hw : (writeFrom env cfg.index 0 cfg.messagesPerFile).2 with
      | some me =>
        simp [ho, hw] at h
        have := writeFrom_get env cfg.index cfg.messagesPerFile 0 i m h
        simpa using this
      | none =>
        cases hc : env.closeResult cfg.index with
        | some me =>
          simp [ho, hw, hc] at h
          have := writeFrom_get env cfg.index cfg.messagesPerFile 0 i m h
          simpa using this
        | none =>
          simp [ho, hw, hc] at h
          have := writeFrom_get env cfg.index cfg.messagesPerFile 0 i m h
          simpa using this

/-- Slot i of the trace vector is exactly the trace of task i. -/
theorem taskTraces_get (env : ExtEnv) (opts : CommandLineOptions) (i : Nat)
    (h : i < opts.fileCount) :
    (taskTraces env opts)[i]? = some (runWriter env (writerConfigOf opts i) ⟨0, 0⟩) := by
  simp [taskTraces, List.getElem?_map, List.getElem?_range, h]

/-- Membership characterization of the trace vector. -/
theorem taskTraces_mem (env : ExtEnv) (opts : CommandLineOptions) (t : TaskTrace)
    (h : t ∈ taskTraces env opts) :
    ∃ i, i < opts.fileCount ∧ t = runWriter env (writerConfigOf opts i) ⟨0, 0⟩ := by
  unfold taskTraces at h
  rcases List.mem_map.mp h with ⟨i, hi, rfl⟩
  exact ⟨i, List.mem_range.mp hi, rfl⟩

/-- Scanning a slot list whose first filled slot holds m yields m. -/
theorem findSome_id_first {α : Type} :
    ∀ (l : List (Option α)) (j : Nat) (m : α),
      l[j]? = some (some m) → (∀ k, k < j → l[k]? = some none) →
      l.findSome? id = some m := by
  intro l
  induction l with
  | nil =>
    intro j m h _
    simp at h
  | cons x xs ih =>
    intro j m h hk
    cases j with
    | zero =>
      simp at h
      rw [h]
      simp [List.findSome?]
    | succ j =>
      have hx : x = none := by
        have := hk 0 (Nat.succ_pos j)
        simpa using this
      subst hx
      simp only [List.findSome?_cons, id]
      exact ih j m (by simpa using h)
        (fun k hlt => by
          have := hk (k + 1) (Nat.succ_lt_succ hlt)
          simpa using this)

/-- Scanning an all-empty slot list yields nothing. -/
theorem findSome_id_none {α : Type} :
    ∀ (l : List (Option α)), (∀ x ∈ l, x = none) → l.findSome? id = none := by
  intro l
  induction l with
  | nil => intro _; simp
  | cons x xs ih =>
    intro h
    have hx : x = none := h x (List.mem_cons_self x xs)
    subst hx
    simp only [List.findSome?_cons, id]
    exact ih (fun y hy => h y (List.mem_cons_of_mem _ hy))

/-- Sum of a constant-valued map. -/
theorem sum_map_const {α : Type} (l : List α) (f : α → Nat) (M : Nat)
    (h : ∀ x ∈ l, f x = M) : (l.map f).sum = l.length * M := by
  induction l with
  | nil => simp
  | cons x xs ih =>
    have hx : f x = M := h x (List.mem_cons_self x xs)
    have hxs := ih (fun y hy => h y (List.mem_cons_of_mem x hy))
    simp [hx, hxs]
    ring

/-- Claim C3: every configuration returned by parseCommandLine satisfies
uncompressedBufferSize at least logContainerSize, and when the value
supplied by the caller (the loop result before the clamp) is smaller
than the container size, the buffer is raised to exactly the container
size, regardless of the order of the flags. -/
theorem buffer_clamped_to_container (d c : Nat) (args : List String)
    (opts : CommandLineOptions)
    (h : parseCommandLine d c args = ParseOutcome.options opts) :
    ((opts.logContainerSize : Int) ≤ opts.uncompressedBufferSize) ∧
    (∀ raw, parseLoop (initialOptions d c) args = ParseOutcome.options raw →
      raw.uncompressedBufferSize < (raw.logContainerSize : Int) →
      opts.uncompressedBufferSize = (raw.logContainerSize : Int) ∧
      opts.logContainerSize = raw.logContainerSize) := by
  unfold parseCommandLine at h
  cases hp : parseLoop (initialOptions d c) args with
  | exitHelp =>
    rw [hp] at h
    simp at h
  | error m =>
    rw [hp] at h
    simp at h
  | options o =>
    rw [hp] at h
    injection h with h2
    subst h2
    constructor
    · exact clampOptions_le o
    · intro raw hraw hlt
      injection hraw with h3
      subst h3
      exact ⟨clampOptions_raises o hlt, clampOptions_lcs o⟩

/-- Witness for buffer_clamped_to_container at a concrete argument list
supplying a 5 byte buffer and a 100 byte container. -/
theorem buffer_clamped_to_container_witness :
    ((clampWOpts.logContainerSize : Int) ≤ clampWOpts.uncompressedBufferSize) :=
  (buffer_clamped_to_container 128 4
    ["--uncompressed-bytes", "5", "--log-container-bytes", "100"]
    clampWOpts (by decide)).1

/-- Claim C4: one execution of the writer task either leaves its failure
slot empty and assigns both result fields, or captures a failure and
leaves its result slot exactly as given, never both and never neither. -/
theorem writer_task_result_or_failure (env : ExtEnv) (cfg : WriterConfig)
    (slot : WriterResult) :
    ((runWriter env cfg slot).errorSlot = none ∧
      (runWriter env cfg slot).resultSlot = ⟨cfg.messagesPerFile, env.elapsed cfg.index⟩) ∨
    ((runWriter env cfg slot).errorSlot.isSome = true ∧
      (runWriter env cfg slot).resultSlot = slot) :=
  runWriter_cases env cfg slot

/-- Claim C10: a writer task that captures a failure leaves its
pre-allocated, value-initialized result slot exactly at zero. -/
theorem failed_task_result_untouched (env : ExtEnv) (cfg : WriterConfig)
    (h : (runWriter env cfg ⟨0, 0⟩).errorSlot.isSome = true) :
    (runWriter env cfg ⟨0, 0⟩).resultSlot = ⟨0, 0⟩ := by
  rcases runWriter_cases env cfg ⟨0, 0⟩ with ⟨h1, _⟩ | ⟨_, h2⟩
  · rw [h1] at h
    simp at h
  · exact h2

/-- Witness for failed_task_result_untouched under an environment in
which the open reports a closed file. -/
theorem failed_task_result_untouched_witness :
    (runWriter openFailEnv cfgW ⟨0, 0⟩).resultSlot = ⟨0, 0⟩ :=
  failed_task_result_untouched openFailEnv cfgW (by decide)

/-- Claim C7: the frame identifier equals the pure function frameId of
the sequence number, stays within the bounded range 0x100 to 0x7FF, and
is periodic with period 0x700. -/
theorem frame_id_bounded_and_periodic (index i : Nat) :
    (mkCanMessage index i).id = frameId i ∧
    0x100 ≤ frameId i ∧
    frameId i ≤ 0x7FF ∧
    frameId (i + 0x700) = frameId i := by
  refine ⟨?_, ?_, ?_, ?_⟩
  · simp only [mkCanMessage]
    unfold frameId
    omega
  · unfold frameId
    omega
  · unfold frameId
    omega
  · unfold frameId
    omega

/-- Claim C8: the path a writer task opens is a pure function of the
output directory and the task index, and the three tasks of the
concrete scenario open exactly the three expected paths. -/
theorem writer_output_path_deterministic (env : ExtEnv) (cfg : WriterConfig)
    (slot : WriterResult) :
    (runWriter env cfg slot).pathOpened = outputPath cfg.outputDirectory cfg.index ∧
    outputPath cfg.outputDirectory cfg.index =
      cfg.outputDirectory ++ "/can_channel_" ++ toString (cfg.index + 1) ++ ".blf" ∧
    (taskTraces allOkEnv scenarioOpts).map (fun t => t.pathOpened) =
      ["out/can_channel_1.blf", "out/can_channel_2.blf", "out/can_channel_3.blf"] := by
  refine ⟨?_, rfl, by decide⟩
  unfold runWriter
  cases ho : env.openResult (outputPath cfg.outputDirectory cfg.index) with
  | error m => simp [ho]
  | ok b =>
    cases b with
    | false => simp [ho]
    | true =>
      cases hw : (writeFrom env cfg.index 0 cfg.messagesPerFile).2 with
      | some m => simp [ho, hw]
      | none =>
        cases hc : env.closeResult cfg.index with
        | some m => simp [ho, hw, hc]
        | none => simp [ho, hw, hc]

/-- Claim C1 (amended): argument parsing rejects a zero value for the
files, messages, queue-size and compression-threads flags and any value
the numeric parsers reject (non-digit text, trailing garbage); the
uncompressed-bytes parser itself rejects every value that is zero or
negative, and the log-container-bytes flag still rejects every value
its numeric parser rejects; in particular a files or messages value of
0 throws.  However
a minus sign is accepted by the unsigned parsers (the value wraps
modulo 2 to the 64, so a negative files value yields a huge positive
count), and the log-container-bytes flag accepts zero, so not every
zero or negative value is rejected. -/
theorem numeric_flag_validation (opts : CommandLineOptions) (v : String)
    (rest : List String) (d c : Nat) :
    ((parseSizeT v = Except.ok 0 ∨ (∃ m, parseSizeT v = Except.error m)) →
      (parseLoop opts ("--files" :: v :: rest)).isErr = true) ∧
    ((parseSizeT v = Except.ok 0 ∨ (∃ m, parseSizeT v = Except.error m)) →
      (parseLoop opts ("--messages" :: v :: rest)).isErr = true) ∧
    ((parseUint32 v = Except.ok 0 ∨ (∃ m, parseUint32 v = Except.error m)) →
      (parseLoop opts ("--queue-size" :: v :: rest)).isErr = true) ∧
    ((parseUint32 v = Except.ok 0 ∨ (∃ m, parseUint32 v = Except.error m)) →
      (parseLoop opts ("--compression-threads" :: v :: rest)).isErr = true) ∧
    ((∃ m, parseStreamSize v = Except.error m) →
      (parseLoop opts ("--uncompressed-bytes" :: v :: rest)).isErr = true) ∧
    ((∃ m, parseUint32 v = Except.error m) →
      (parseLoop opts ("--log-container-bytes" :: v :: rest)).isErr = true) ∧
    (∀ z, parseStreamSize v = Except.ok z → 0 < z) ∧
    (parseCommandLine d c ["--files", "0"]).isErr = true ∧
    (parseCommandLine d c ["--messages", "0"]).isErr = true ∧
    (parseCommandLine d c ["--files", "-1"]).isOpts = true ∧
    (parseCommandLine d c ["--log-container-bytes", "0"]).isOpts = true := by
  refine ⟨?_, ?_, ?_, ?_, ?_, ?_, ?_, ?_, ?_, ?_, ?_⟩
  · intro hv
    rcases hv with h0 | ⟨m, hm⟩
    · simp [parseLoop, h0, ParseOutcome.isErr]
    · simp [parseLoop, hm, ParseOutcome.isErr]
  · intro hv
    rcases hv with h0 | ⟨m, hm⟩
    · simp [parseLoop, h0, ParseOutcome.isErr]
    · simp [parseLoop, hm, ParseOutcome.isErr]
  · intro hv
    rcases hv with h0 | ⟨m, hm⟩
    · simp [parseLoop, h0, ParseOutcome.isErr]
    · simp [parseLoop, hm, ParseOutcome.isErr]
  · intro hv
    rcases hv with h0 | ⟨m, hm⟩
    · simp [parseLoop, h0, ParseOutcome.isErr]
    · simp [parseLoop, hm, ParseOutcome.isErr]
  · intro hv
    rcases hv with ⟨m, hm⟩
    simp [parseLoop, hm, ParseOutcome.isErr]
  · intro hv
    rcases hv with ⟨m, hm⟩
    simp [parseLoop, hm, ParseOutcome.isErr]
  · intro z hz
    simp only [parseStreamSize] at hz
    split at hz
    · simp at hz
    · split at hz
      · simp at hz
      · injection hz with h4
        omega
  · simp [parseCommandLine, parseLoop, show parseSizeT "0" = Except.ok 0 from rfl,
      ParseOutcome.isErr]
  · simp [parseCommandLine, parseLoop, show parseSizeT "0" = Except.ok 0 from rfl,
      ParseOutcome.isErr]
  · simp [parseCommandLine, parseLoop,
      show parseSizeT "-1" = Except.ok 18446744073709551615 from rfl, ParseOutcome.isOpts]
  · simp [parseCommandLine, parseLoop, show parseUint32 "0" = Except.ok 0 from rfl,
      ParseOutcome.isOpts]

/-- Witness for numeric_flag_validation: a zero files value, a negative
uncompressed-bytes value, a non-numeric log-container-bytes value and a
zero messages value each throw. -/
theorem numeric_flag_validation_witness :
    (parseLoop (initialOptions 128 4) ["--files", "0"]).isErr = true ∧
    (parseLoop (initialOptions 128 4) ["--uncompressed-bytes", "-5"]).isErr = true ∧
    (parseLoop (initialOptions 128 4) ["--log-container-bytes", "abc"]).isErr = true ∧
    (parseCommandLine 128 4 ["--messages", "0"]).isErr = true := by
  have h := numeric_flag_validation (initialOptions 128 4) ("0") ([]) 128 4
  have h2 := numeric_flag_validation (initialOptions 128 4) ("-5") ([]) 128 4
  have h3 := numeric_flag_validation (initialOptions 128 4) ("abc") ([]) 128 4
  exact ⟨h.1 (Or.inl rfl),
    h2.2.2.2.2.1 ⟨("buffer sizes must be positive"), rfl⟩,
    h3.2.2.2.2.2.1 ⟨("unable to parse numeric argument"), rfl⟩,
    h.2.2.2.2.2.2.2.2.1⟩

/-- Counterexample to claim C1 as stated: a zero log-container-bytes
value and a negative files value are both accepted, returning a
configuration instead of throwing. -/
theorem numeric_flag_validation_cex :
    (parseCommandLine 128 4 ["--log-container-bytes", "0"]).isOpts = true ∧
    parseCommandLine 128 4 ["--files", "-1"] =
      ParseOutcome.options
        ⟨18446744073709551615, 200000, 10000, 2048, 128, 4, "blf_multi_writer_logs"⟩ := by
  decide

/-- Claim C2: after the join barrier, slot i holds the full trace of
task i alone (a failure in one task never prevents a sibling from
populating its slots); the orchestrator re-raises the first failure in
index order, discarding any later ones; and with no failure it proceeds
to the report. -/
theorem orchestrator_joins_then_first_failure (env : ExtEnv) (d c : Nat)
    (args : List String) (opts : CommandLineOptions)
    (hp : parseCommandLine d c args = ParseOutcome.options opts)
    (hdir : env.mkdirOk opts.outputDirectory = true) :
    (∀ (i : Nat), i < opts.fileCount →
      (taskTraces env opts)[i]? = some (runWriter env (writerConfigOf opts i) ⟨0, 0⟩)) ∧
    (∀ (j : Nat) (m : String), (errorSlots env opts)[j]? = some (some m) →
      (∀ (k : Nat), k < j → (errorSlots env opts)[k]? = some none) →
      mainRun env d c args = ⟨MainOutcome.runFatal m, true, opts.fileCount⟩) ∧
    ((∀ t ∈ taskTraces env opts, t.errorSlot = none) →
      mainRun env d c args =
        ⟨MainOutcome.report opts (resultSlots env opts), true, opts.fileCount⟩) := by
  refine ⟨fun i hi => taskTraces_get env opts i hi, ?_, ?_⟩
  · intro j m hj hk
    have hf : (errorSlots env opts).findSome? id = some m := findSome_id_first _ j m hj hk
    simp [mainRun, hp, hdir, hf]
  · intro hall
    have hf : (errorSlots env opts).findSome? id = none := by
      apply findSome_id_none
      intro x hx
      unfold errorSlots at hx
      rcases List.mem_map.mp hx with ⟨t, ht, rfl⟩
      exact hall t ht
    simp [mainRun, hp, hdir, hf]

/-- Witness for orchestrator_joins_then_first_failure: with the second
open failing the run fails with that message; with everything
succeeding the run reports. -/
theorem orchestrator_joins_then_first_failure_witness :
    mainRun secondOpenFailEnv 128 4 ["--files", "2", "--messages", "1"] =
      ⟨MainOutcome.runFatal
          ("unable to open output file \x27blf_multi_writer_logs/can_channel_2.blf\x27"),
        true, optsTwoOne.fileCount⟩ ∧
    mainRun allOkEnv 128 4 ["--files", "2", "--messages", "1"] =
      ⟨MainOutcome.report optsTwoOne (resultSlots allOkEnv optsTwoOne), true,
        optsTwoOne.fileCount⟩ := by
  constructor
  · exact (orchestrator_joins_then_first_failure secondOpenFailEnv 128 4
      ["--files", "2", "--messages", "1"] optsTwoOne (by decide) (by decide)).2.1 1
      ("unable to open output file \x27blf_multi_writer_logs/can_channel_2.blf\x27")
      (by decide)
      (by
        intro k hk
        have hk0 : k = 0 := by omega
        subst hk0
        decide)
  · exact (orchestrator_joins_then_first_failure allOkEnv 128 4
      ["--files", "2", "--messages", "1"] optsTwoOne (by decide) (by decide)).2.2 (by decide)

/-- Claim C5 (amended): in a failure-free run the sum of messagesWritten
over all tasks is fileCount times messagesPerFile, and the total frame
count printed by the summary is that product reduced modulo 2 to the
64, hence exactly the product whenever the product fits in a size_t. -/
theorem total_frames_sum (env : ExtEnv) (d c : Nat) (args : List String)
    (opts : CommandLineOptions)
    (_hp : parseCommandLine d c args = ParseOutcome.options opts)
    (hok : ∀ t ∈ taskTraces env opts, t.errorSlot = none) :
    sumMessagesWritten env opts = opts.fileCount * opts.messagesPerFile ∧
    totalFramesReported opts = (opts.fileCount * opts.messagesPerFile) % U64 ∧
    (opts.fileCount * opts.messagesPerFile < U64 →
      totalFramesReported opts = sumMessagesWritten env opts) := by
  have hW : ∀ t ∈ taskTraces env opts,
      t.resultSlot.messagesWritten = opts.messagesPerFile := by
    intro t ht
    rcases taskTraces_mem env opts t ht with ⟨i, hi, rfl⟩
    rcases runWriter_cases env (writerConfigOf opts i) ⟨0, 0⟩ with ⟨he, hr⟩ | ⟨he, hr⟩
    · rw [hr]
      rfl
    · have hn := hok _ ht
      rw [hn] at he
      simp at he
  have hsum : sumMessagesWritten env opts =
      (taskTraces env opts).length * opts.messagesPerFile :=
    sum_map_const _ _ _ hW
  have hlen : (taskTraces env opts).length = opts.fileCount := by
    simp [taskTraces]
  refine ⟨?_, ?_, ?_⟩
  · rw [hsum, hlen]
  · unfold totalFramesReported
    rw [Nat.mul_comm]
  · intro hlt
    rw [hsum, hlen]
    unfold totalFramesReported
    rw [Nat.mul_comm opts.messagesPerFile opts.fileCount]
    exact Nat.mod_eq_of_lt hlt

/-- Witness for total_frames_sum: two files of three messages sum to
six. -/
theorem total_frames_sum_witness :
    sumMessagesWritten allOkEnv optsTwoThree =
      optsTwoThree.fileCount * optsTwoThree.messagesPerFile :=
  (total_frames_sum allOkEnv 128 4 ["--files", "2", "--messages", "3"] optsTwoThree
    (by decide) (by decide)).1

/-- Counterexample to claim C5 as stated: sixteen files of 2 to the 60
messages are accepted and fail in no task, the mathematical sum of
messagesWritten is 2 to the 64, yet the summary prints a total of 0
because the size_t product wraps. -/
theorem total_frames_sum_cex :
    parseCommandLine 128 4 ["--files", "16", "--messages", "1152921504606846976"] =
      ParseOutcome.options bigOpts ∧
    (∀ t ∈ taskTraces allOkEnv bigOpts, t.errorSlot = none) ∧
    sumMessagesWritten allOkEnv bigOpts = 18446744073709551616 ∧
    totalFramesReported bigOpts = 0 ∧
    totalFramesReported bigOpts ≠ bigOpts.fileCount * bigOpts.messagesPerFile := by
  have hok : ∀ t ∈ taskTraces allOkEnv bigOpts, t.errorSlot = none := by
    intro t ht
    obtain ⟨i, hi, heq⟩ := taskTraces_mem allOkEnv bigOpts t ht
    rw [heq]
    exact (runWriter_success allOkEnv (writerConfigOf bigOpts i) ⟨0, 0⟩ rfl
      (fun _ => rfl) rfl).1
  have hW : ∀ t ∈ taskTraces allOkEnv bigOpts,
      t.resultSlot.messagesWritten = bigOpts.messagesPerFile := by
    intro t ht
    obtain ⟨i, hi, heq⟩ := taskTraces_mem allOkEnv bigOpts t ht
    rw [heq]
    rw [(runWriter_success allOkEnv (writerConfigOf bigOpts i) ⟨0, 0⟩ rfl
      (fun _ => rfl) rfl).2]
    rfl
  refine ⟨by decide, hok, ?_, by decide, by decide⟩
  have hsum := sum_map_const (taskTraces allOkEnv bigOpts)
    (fun t => t.resultSlot.messagesWritten) bigOpts.messagesPerFile hW
  unfold sumMessagesWritten
  rw [hsum]
  have hlen : (taskTraces allOkEnv bigOpts).length = 16 := by
    simp [taskTraces, bigOpts]
  rw [hlen]
  norm_num [bigOpts]

/-- Claim C6: a frame submitted at sequence number i is a pure function
of the task index and i, identical across any two environments (hence
across any two runs, independent of timing); its timestamp equals i and
its payload byte k equals the fixed function of i and k. -/
theorem frames_deterministic (env1 env2 : ExtEnv) (cfg1 cfg2 : WriterConfig)
    (s1 s2 : WriterResult) (i : Nat) (m1 m2 : CanMessage)
    (hidx : cfg1.index = cfg2.index)
    (h1 : (runWriter env1 cfg1 s1).framesSubmitted[i]? = some m1)
    (h2 : (runWriter env2 cfg2 s2).framesSubmitted[i]? = some m2) :
    m1 = m2 ∧
    m1 = mkCanMessage cfg1.index i ∧
    (i < U64 → m1.objectTimeStamp = i) ∧
    (∀ k, k < payloadCount → m1.data[k]? = some ((i + k) % 256)) := by
  have e1 := runWriter_frames_get env1 cfg1 s1 i m1 h1
  have e2 := runWriter_frames_get env2 cfg2 s2 i m2 h2
  subst e1
  refine ⟨?_, rfl, ?_, ?_⟩
  · rw [e2, hidx]
  · intro hi
    simp only [mkCanMessage]
    exact Nat.mod_eq_of_lt hi
  · intro k hk
    simp [mkCanMessage, List.getElem?_map, List.getElem?_range, hk]

/-- Witness for frames_deterministic: frame 1 of task 0, produced under
two environments with different clocks, has timestamp 1 and payload
byte 3 equal to 4. -/
theorem frames_deterministic_witness :
    (mkCanMessage 0 1).objectTimeStamp = 1 ∧ (mkCanMessage 0 1).data[3]? = some 4 := by
  have h := frames_deterministic allOkEnv allOkEnvSlow cfgW cfgW ⟨0, 0⟩ ⟨0, 0⟩ 1
    (mkCanMessage 0 1) (mkCanMessage 0 1) rfl (by decide) (by decide)
  refine ⟨h.2.2.1 (by decide), ?_⟩
  have h3 := h.2.2.2 3 (by decide)
  simpa using h3

/-- Claim C9 (amended): when the help flag is scanned in argument
position, parsing exits with success immediately, and main neither
attempts directory creation nor launches any task. -/
theorem help_flag_exits_immediately (opts : CommandLineOptions) (rest : List String)
    (env : ExtEnv) (d c : Nat) :
    parseLoop opts ("--help" :: rest) = ParseOutcome.exitHelp ∧
    parseLoop opts ("-h" :: rest) = ParseOutcome.exitHelp ∧
    mainRun env d c ("--help" :: rest) = ⟨MainOutcome.helpShown, false, 0⟩ ∧
    mainRun env d c ("-h" :: rest) = ⟨MainOutcome.helpShown, false, 0⟩ := by
  have h1 : ∀ (o : CommandLineOptions),
      parseLoop o ("--help" :: rest) = ParseOutcome.exitHelp := by
    intro o
    unfold parseLoop
    simp
  have h2 : ∀ (o : CommandLineOptions),
      parseLoop o ("-h" :: rest) = ParseOutcome.exitHelp := by
    intro o
    unfold parseLoop
    simp
  refine ⟨h1 opts, h2 opts, ?_, ?_⟩
  · simp [mainRun, parseCommandLine, h1]
  · simp [mainRun, parseCommandLine, h2]

/-- Counterexample to claim C9 as stated: when help follows the
output-dir flag it is consumed as that flag value, so the run does its
full work (directory creation and one task) instead of exiting at the
help path. -/
theorem help_flag_cex :
    mainRun allOkEnv 128 4 ["--files", "1", "--messages", "1", "--output-dir", "--help"] =
      ⟨MainOutcome.report cexHelpOpts [⟨1, 0⟩], true, 1⟩ ∧
    (mainRun allOkEnv 128 4
        ["--files", "1", "--messages", "1", "--output-dir", "--help"]).outcome ≠
      MainOutcome.helpShown := by
  decide

end MWB
